import Mathlib

/-
Verification development for the `func` tree-walking interpreter.

Embedded source files (translated definition by definition):
  - src/common/ast.rs          -> the AST types below
  - src/runtime/interpreter.rs -> `evalStep` / `eval` and `binaryOp` / `unaryOp`
  - src/runtime/builtin.rs     -> `Builtin`, `Builtin.parameters`, `builtinInit`,
                                  `Builtin.tryFrom`, `builtinExecute`, `formatScan`

Parts of the repository that are not under src/ (src/common/object.rs,
src/common/token.rs, src/common/error.rs, src/common/position.rs,
src/runtime/environment.rs and the CLI driver) are modelled from the spec;
each such definition carries a doc comment starting with "Modelled from the
spec:".

Modelling conventions:
  - Rust f64 numbers are modelled as rationals (exact for every literal the
    claims exercise; IEEE rounding, infinities and NaN are out of scope).
  - Standard output is modelled as a string accumulated in the interpreter
    state; `print!`/`println!` append to it.
  - The mutually recursive evaluator is embedded as a single function `eval`
    that is structurally recursive on a fuel argument, so that closed
    evaluations reduce definitionally; `none` means the fuel ran out and is
    never the verdict of a claim.
-/

namespace Func

/-- Modelled from the spec: src/common/position.rs is not under src/.
Per section 3, a Position is an immutable source name plus 1-based line,
attached to every token and carried into every error. -/
structure Position where
  sourceName : String
  line : Nat
  deriving Repr, DecidableEq

/-- Modelled from the spec: the Meta record of src/common/object.rs (not under
src/) is "a small mutable Meta flag record used purely for control flow: a
returning flag" (section 3). -/
structure Meta where
  returning : Bool
  deriving Repr, DecidableEq

/-- Mirrors Rust Meta::default(): the returning flag starts cleared. -/
def Meta.default : Meta := ⟨false⟩

/-- Modelled from the spec: the Object enum of src/common/object.rs (not under
src/), section 3: a tagged union over Number(float64), String, Boolean, Nil and
Array, each variant carrying a Meta record.  Numbers are modelled as rationals
(see the header comment). -/
inductive Object where
  | number : ℚ → Meta → Object
  | str : String → Meta → Object
  | boolean : Bool → Meta → Object
  | nil : Meta → Object
  | array : List Object → Meta → Object
  deriving Repr

/-- Modelled from the spec: Object::is_true (object.rs is not under src/),
section 4.5: numbers, strings and arrays are truthy; Nil and false are falsy;
booleans are their own value. -/
def Object.isTrue : Object → Bool
  | .boolean b _ => b
  | .nil _ => false
  | _ => true

/-- Modelled from the spec: Object::set_return sets the Meta returning flag of
the value (section 4.5: "a Return statement immediately sets the result's
returning flag"). -/
def Object.setReturn : Object → Object
  | .number q _ => .number q ⟨true⟩
  | .str t _ => .str t ⟨true⟩
  | .boolean b _ => .boolean b ⟨true⟩
  | .nil _ => .nil ⟨true⟩
  | .array xs _ => .array xs ⟨true⟩

/-- Modelled from the spec: Object::is_return reads the Meta returning flag. -/
def Object.isReturn : Object → Bool
  | .number _ m => m.returning
  | .str _ m => m.returning
  | .boolean _ m => m.returning
  | .nil m => m.returning
  | .array _ m => m.returning

mutual

/-- Modelled from the spec: the Display rendering of Object (object.rs is not
under src/), section 6: numbers render without unnecessary trailing zeros
(integral rationals render as integers; only integral numbers are exercised by
the claims), strings render unquoted, booleans as true/false, Nil as a fixed
literal, arrays as a delimited list of their elements' renderings. -/
def Object.display : Object → String
  | .number q _ => if q.den = 1 then toString q.num else toString q
  | .str t _ => t
  | .boolean b _ => if b then "true" else "false"
  | .nil _ => "nil"
  | .array xs _ => "[" ++ displayList xs ++ "]"

/-- Comma-separated rendering of array elements (the delimited list of
section 6). -/
def displayList : List Object → String
  | [] => ""
  | [x] => x.display
  | x :: xs => x.display ++ ", " ++ displayList xs

end

mutual

/-- Modelled from the spec: Object equality (object.rs is not under src/),
section 3: "Equality is structural (same variant, equal payload);
cross-variant comparisons are never equal". -/
def Object.beq : Object → Object → Bool
  | .number x _, .number y _ => x == y
  | .str x _, .str y _ => x == y
  | .boolean x _, .boolean y _ => x == y
  | .nil _, .nil _ => true
  | .array xs _, .array ys _ => beqList xs ys
  | _, _ => false

/-- Element-wise structural equality of array payloads. -/
def beqList : List Object → List Object → Bool
  | [], [] => true
  | x :: xs, y :: ys => x.beq y && beqList xs ys
  | _, _ => false

end

/-- Modelled from the spec: the error taxonomy of src/common/error.rs (not
under src/), section 7.  Every interpreter and builtin error in the embedded
code is an ErrorType.runtimeError with a formatted message. -/
inductive ErrorType where
  | lexError
  | parseError
  | runtimeError
  deriving Repr, DecidableEq

/-- Modelled from the spec: src/common/error.rs (not under src/): an error
carries its type, a human-readable message and the source Position where it
originated (section 7). -/
structure Error where
  etype : ErrorType
  message : String
  position : Position
  deriving Repr, DecidableEq

/-- Modelled from the spec: the TokenType enum of src/common/token.rs (not
under src/).  Only the constructors the interpreter inspects are needed; the
literal-token kinds stand for every kind the wildcard arms treat alike. -/
inductive TokenType where
  | and
  | or
  | equalEqual
  | notEqual
  | greater
  | greaterEqual
  | less
  | lessEqual
  | plus
  | minus
  | star
  | slash
  | modulo
  | not
  | identifier
  | numberLit
  | stringLit
  | booleanLit
  | nilLit
  deriving Repr, DecidableEq

/-- Modelled from the spec: the Token of src/common/token.rs (not under src/),
section 3: kind, literal lexeme, optional pre-resolved runtime value, and a
source position. -/
structure Token where
  ttype : TokenType
  lexeme : String
  literal : Option Object
  position : Position
  deriving Repr

/-- src/common/ast.rs Parameter: an identifier token plus the variadic "pack"
marker. -/
structure Parameter where
  identifier : Token
  isPack : Bool
  deriving Repr

mutual

/-- src/common/ast.rs Statement. -/
inductive Statement where
  | letStmt : Token → Expression → Statement
  | assignment : Token → Expression → Statement
  | function : FunctionStatement → Statement
  | ret : Expression → Statement
  | expression : Expression → Statement

/-- src/common/ast.rs FunctionStatement: identifier, parameters, and an
optional block body (None marks a builtin). -/
inductive FunctionStatement where
  | mk : Token → List Parameter → Option BlockExpression → FunctionStatement

/-- src/common/ast.rs BlockExpression: an ordered sequence of statements. -/
inductive BlockExpression where
  | mk : List Statement → BlockExpression

/-- src/common/ast.rs ElseBlock: a plain block or a chained if. -/
inductive ElseBlock where
  | block : BlockExpression → ElseBlock
  | ifE : IfExpression → ElseBlock

/-- src/common/ast.rs IfExpression: condition, if-block, optional else. -/
inductive IfExpression where
  | mk : Expression → BlockExpression → Option ElseBlock → IfExpression

/-- src/common/ast.rs Expression (Binary/Unary/Group/Call keep their operator
and identifier tokens; Array literals hold raw tokens). -/
inductive Expression where
  | block : BlockExpression → Expression
  | ifE : IfExpression → Expression
  | binary : Expression → Token → Expression → Expression
  | unary : Token → Expression → Expression
  | group : Expression → Expression
  | call : Token → List Expression → Expression
  | identifier : Token → Expression
  | literal : Token → Expression
  | array : List Token → Expression

end

/-- Field accessor mirroring function_statement.identifier. -/
def FunctionStatement.identifier : FunctionStatement → Token
  | .mk i _ _ => i

/-- Field accessor mirroring function_statement.paramiters (sic). -/
def FunctionStatement.paramiters : FunctionStatement → List Parameter
  | .mk _ ps _ => ps

/-- Field accessor mirroring function_statement.block. -/
def FunctionStatement.block : FunctionStatement → Option BlockExpression
  | .mk _ _ b => b

/-- Field accessor mirroring block_expression.statements. -/
def BlockExpression.statements : BlockExpression → List Statement
  | .mk ss => ss

/-- Field accessor mirroring if_expression.condition. -/
def IfExpression.condition : IfExpression → Expression
  | .mk c _ _ => c

/-- Field accessor mirroring if_expression.if_block. -/
def IfExpression.ifBlock : IfExpression → BlockExpression
  | .mk _ b _ => b

/-- Field accessor mirroring if_expression.else_block. -/
def IfExpression.elseBlock : IfExpression → Option ElseBlock
  | .mk _ _ e => e

/-- src/common/ast.rs: a Program is an ordered list of top-level statements. -/
abbrev Program := List Statement


/-! ### Operator dispatch (interpreter.rs, evaluate_binary_expression /
evaluate_unary_expression) -/

/-- Binary/unary type-mismatch error for an unsupported operand type
("doesn't support" spelling used by evaluate_binary_expression). -/
def tmOperand (op : Token) (tyName : String) : Error :=
  ⟨.runtimeError,
    "Type mismatch, `" ++ op.lexeme ++ "` doesn't support `" ++ tyName ++
      "` as it's operand",
    op.position⟩

/-- Unary type-mismatch error ("does not support" spelling used by
evaluate_unary_expression). -/
def tmOperandUnary (op : Token) (tyName : String) : Error :=
  ⟨.runtimeError,
    "Type mismatch, `" ++ op.lexeme ++ "` does not support `" ++ tyName ++
      "` as it's operand",
    op.position⟩

/-- Type-mismatch error for operands of differing types. -/
def tmSameType (op : Token) : Error :=
  ⟨.runtimeError,
    "Type mismatch, `" ++ op.lexeme ++ "` expects same type on both side",
    op.position⟩

/-- Error for a token that is not a binary operator. -/
def notBinaryErr (op : Token) : Error :=
  ⟨.runtimeError, "`" ++ op.lexeme ++ "` is not a binary operator.",
    op.position⟩

/-- Error for a token that is not a unary operator. -/
def notUnaryErr (op : Token) : Error :=
  ⟨.runtimeError, "`" ++ op.lexeme ++ "` is not a unary operator.",
    op.position⟩

/-- Rust f64 `%` on the rational model: remainder of truncated division
(x - y * trunc(x / y)); exact for the values the claims exercise. -/
def f64Rem (x y : ℚ) : ℚ :=
  x - y * ((Int.tdiv (x / y).num ((x / y).den : ℤ) : ℤ) : ℚ)

/-- interpreter.rs, evaluate_binary_expression lines 157-524: the pure
dispatch applied after both operands were evaluated.  Each arm mirrors the
corresponding Rust match arm, including the string arms of the relational
operators returning concatenation and the missing boolean arm of `%`. -/
def binaryOp (op : Token) (left right : Object) : Except Error Object :=
  match op.ttype with
  | .and => .ok (.boolean (left.isTrue && right.isTrue) Meta.default)
  | .or => .ok (.boolean (left.isTrue || right.isTrue) Meta.default)
  | .equalEqual => .ok (.boolean (left.beq right) Meta.default)
  | .notEqual => .ok (.boolean (!(left.beq right)) Meta.default)
  | .greater =>
    match left, right with
    | .number x _, .number y _ => .ok (.boolean (decide (x > y)) Meta.default)
    | .boolean _ _, .boolean _ _ => .error (tmOperand op "boolean")
    | .str x _, .str y _ => .ok (.str (x ++ y) Meta.default)
    | .nil _, .nil _ => .error (tmOperand op "nil")
    | _, _ => .error (tmSameType op)
  | .greaterEqual =>
    match left, right with
    | .number x _, .number y _ => .ok (.boolean (decide (x ≥ y)) Meta.default)
    | .boolean _ _, .boolean _ _ => .error (tmOperand op "boolean")
    | .str x _, .str y _ => .ok (.str (x ++ y) Meta.default)
    | .nil _, .nil _ => .error (tmOperand op "nil")
    | _, _ => .error (tmSameType op)
  | .less =>
    match left, right with
    | .number x _, .number y _ => .ok (.boolean (decide (x < y)) Meta.default)
    | .boolean _ _, .boolean _ _ => .error (tmOperand op "boolean")
    | .str x _, .str y _ => .ok (.str (x ++ y) Meta.default)
    | .nil _, .nil _ => .error (tmOperand op "nil")
    | _, _ => .error (tmSameType op)
  | .lessEqual =>
    match left, right with
    | .number x _, .number y _ => .ok (.boolean (decide (x ≤ y)) Meta.default)
    | .boolean _ _, .boolean _ _ => .error (tmOperand op "boolean")
    | .str x _, .str y _ => .ok (.str (x ++ y) Meta.default)
    | .nil _, .nil _ => .error (tmOperand op "nil")
    | _, _ => .error (tmSameType op)
  | .plus =>
    match left, right with
    | .number x _, .number y _ => .ok (.number (x + y) Meta.default)
    | .boolean _ _, .boolean _ _ => .error (tmOperand op "boolean")
    | .str x _, .str y _ => .ok (.str (x ++ y) Meta.default)
    | .nil _, .nil _ => .error (tmOperand op "nil")
    | _, _ => .error (tmSameType op)
  | .minus =>
    match left, right with
    | .number x _, .number y _ => .ok (.number (x - y) Meta.default)
    | .boolean _ _, .boolean _ _ => .error (tmOperand op "boolean")
    | .str _ _, .str _ _ => .error (tmOperand op "string")
    | .nil _, .nil _ => .error (tmOperand op "nil")
    | _, _ => .error (tmSameType op)
  | .star =>
    match left, right with
    | .number x _, .number y _ => .ok (.number (x * y) Meta.default)
    | .boolean _ _, .boolean _ _ => .error (tmOperand op "boolean")
    | .str _ _, .str _ _ => .error (tmOperand op "string")
    | .nil _, .nil _ => .error (tmOperand op "nil")
    | _, _ => .error (tmSameType op)
  | .slash =>
    match left, right with
    | .number x _, .number y _ => .ok (.number (x / y) Meta.default)
    | .boolean _ _, .boolean _ _ => .error (tmOperand op "boolean")
    | .str _ _, .str _ _ => .error (tmOperand op "string")
    | .nil _, .nil _ => .error (tmOperand op "nil")
    | _, _ => .error (tmSameType op)
  | .modulo =>
    match left, right with
    | .number x _, .number y _ => .ok (.number (f64Rem x y) Meta.default)
    | .str _ _, .str _ _ => .error (tmOperand op "string")
    | .nil _, .nil _ => .error (tmOperand op "nil")
    | _, _ => .error (tmSameType op)
  | _ => .error (notBinaryErr op)

/-- interpreter.rs, evaluate_unary_expression lines 527-585: the pure dispatch
applied after the operand was evaluated. -/
def unaryOp (op : Token) (right : Object) : Except Error Object :=
  match op.ttype with
  | .not => .ok (.boolean (!right.isTrue) Meta.default)
  | .minus =>
    match right with
    | .number x _ => .ok (.number (x * (-1)) Meta.default)
    | .boolean _ _ => .error (tmOperandUnary op "boolean")
    | .str _ _ => .error (tmOperandUnary op "string")
    | .nil _ => .error (tmOperandUnary op "nil")
    | .array _ _ => .error (tmOperandUnary op "array")
  | _ => .error (notUnaryErr op)

/-! ### Builtins (builtin.rs) -/

/-- builtin.rs lines 9-20: the closed enumeration of host functions. -/
inductive Builtin where
  | len
  | first
  | last
  | write
  | writeLn
  | readln
  | pop
  | push
  | format
  deriving Repr, DecidableEq

/-- builtin.rs: the Position all builtin declarations use. -/
def builtinPos : Position := ⟨"builtin", 0⟩

/-- builtin.rs Builtin::parameters: the identifier token of a declared builtin
parameter. -/
def builtinParamTok (name : String) : Token :=
  ⟨.identifier, name, none, builtinPos⟩

/-- builtin.rs lines 24-130, Builtin::parameters: the declared parameter list
of each builtin, including the variadic (pack) flags. -/
def Builtin.parameters : Builtin → List Parameter
  | .len => [⟨builtinParamTok "value", false⟩]
  | .first => [⟨builtinParamTok "value", false⟩]
  | .last => [⟨builtinParamTok "value", false⟩]
  | .write => [⟨builtinParamTok "value", true⟩]
  | .format => [⟨builtinParamTok "format", false⟩, ⟨builtinParamTok "args", true⟩]
  | .writeLn => [⟨builtinParamTok "value", true⟩]
  | .readln => [⟨builtinParamTok "prompt", false⟩]
  | .pop => [⟨builtinParamTok "popable", false⟩]
  | .push => [⟨builtinParamTok "pushable", false⟩, ⟨builtinParamTok "value", false⟩]

/-- builtin.rs ToString for Builtin: the surface name of each builtin. -/
def Builtin.name : Builtin → String
  | .len => "len"
  | .first => "first"
  | .last => "last"
  | .write => "write"
  | .writeLn => "writeln"
  | .readln => "readln"
  | .pop => "pop"
  | .push => "push"
  | .format => "format"

/-- builtin.rs lines 133-159, Builtin::init: every builtin as a
FunctionStatement with its name token, declared parameters, and no block. -/
def builtinInit : List FunctionStatement :=
  [Builtin.len, .first, .last, .format, .write, .writeLn, .readln, .pop,
    .push].map fun b =>
    .mk ⟨.identifier, b.name, none, builtinPos⟩ b.parameters none

/-- builtin.rs lines 373-394, TryFrom Token for Builtin: dispatch by exact
lexeme, UnknownBuiltin otherwise. -/
def Builtin.tryFrom (tok : Token) : Except Error Builtin :=
  match tok.lexeme with
  | "len" => .ok .len
  | "first" => .ok .first
  | "last" => .ok .last
  | "write" => .ok .write
  | "writeln" => .ok .writeLn
  | "readln" => .ok .readln
  | "pop" => .ok .pop
  | "push" => .ok .push
  | "format" => .ok .format
  | _ => .error ⟨.runtimeError,
      "unknown builtin function: " ++ tok.lexeme, tok.position⟩

/-- The character x7b; kept out of string literals. -/
def lbrace : Char := Char.ofNat 123

/-- The character x7d; kept out of string literals. -/
def rbrace : Char := Char.ofNat 125

/-- The scanner state of Builtin::execute for Format (builtin.rs lines
222-226): accumulated result, next auto-argument index, the open-placeholder
flag, the pending-close flag, and the digits of a numeric placeholder. -/
structure FmtState where
  result : String
  argIndex : Nat
  placeholder : Bool
  closePlaceholder : Bool
  placeholderNumber : String
  deriving Repr, DecidableEq

/-- Format error: an auto placeholder with no unused argument remaining. -/
def fmtNotEnoughErr (pos : Position) : Error :=
  ⟨.runtimeError, "Not enough arguments for format string", pos⟩

/-- Format error: a numeric placeholder whose digits do not parse. -/
def fmtBadIndexErr (digits : String) (pos : Position) : Error :=
  ⟨.runtimeError, "Invalid placeholder index: " ++ digits, pos⟩

/-- Format error: a numeric placeholder that is out of bounds. -/
def fmtIndexOutErr (k : Nat) (pos : Position) : Error :=
  ⟨.runtimeError,
    "Not enough arguments for format string, expected at least " ++ toString k,
    pos⟩

/-- Format error: an invalid character inside an open placeholder. -/
def fmtInvalidErr (c : Char) (pos : Position) : Error :=
  ⟨.runtimeError, "Invalid placeholder: " ++ c.toString, pos⟩

/-- Format error: a close brace with no matching open. -/
def fmtUnclosedErr (pos : Position) : Error :=
  ⟨.runtimeError, "Unclosed placeholder", pos⟩

/-- Digit-string accumulator of parseUsize. -/
def digitsToNat : List Char → Nat → Option Nat
  | [], acc => some acc
  | c :: rest, acc =>
    if c.isDigit then digitsToNat rest (acc * 10 + (c.toNat - 48)) else none

/-- Models Rust str::parse for usize on the digit buffer of a format
placeholder (builtin.rs line 244): the empty string does not parse; otherwise
the decimal digits are read left to right (here the buffer only ever holds
digit characters, collected by the scanner). -/
def parseUsize (s : String) : Option Nat :=
  match s.data with
  | [] => none
  | cs => digitsToNat cs 0

/-- builtin.rs lines 228-300: the character loop of Builtin::execute for
Format, one recursive step per character of the template.  Mirrors the Rust
if-chain arm by arm, including: a successful substitution clears the
placeholder flag and the digit buffer but leaves the pending-close flag; an
escape open-brace does not clear the digit buffer; digits are collected with
is_numeric (modelled as isDigit; the claims only exercise ASCII digits); the
loop ending with flags still pending returns the accumulated result. -/
def formatScan (args : List Object) (pos : Position) :
    FmtState → List Char → Except Error String
  | st, [] => .ok st.result
  | st, c :: rest =>
    if st.placeholder then
      if c = rbrace then
        if st.placeholderNumber = "" then
          match args.get? st.argIndex with
          | some a =>
              formatScan args pos
                ⟨st.result ++ a.display, st.argIndex + 1, false,
                  st.closePlaceholder, ""⟩ rest
          | none => .error (fmtNotEnoughErr pos)
        else
          match parseUsize st.placeholderNumber with
          | none => .error (fmtBadIndexErr st.placeholderNumber pos)
          | some k =>
            match args.get? k with
            | some a =>
                formatScan args pos
                  ⟨st.result ++ a.display, st.argIndex, false,
                    st.closePlaceholder, ""⟩ rest
            | none => .error (fmtIndexOutErr k pos)
      else if c = lbrace then
        formatScan args pos
          ⟨st.result.push lbrace, st.argIndex, false, st.closePlaceholder,
            st.placeholderNumber⟩ rest
      else if c.isDigit then
        formatScan args pos
          ⟨st.result, st.argIndex, true, st.closePlaceholder,
            st.placeholderNumber.push c⟩ rest
      else .error (fmtInvalidErr c pos)
    else if c = lbrace then
      formatScan args pos
        ⟨st.result, st.argIndex, true, st.closePlaceholder,
          st.placeholderNumber⟩ rest
    else if c = rbrace && !st.closePlaceholder then
      formatScan args pos
        ⟨st.result, st.argIndex, false, true, st.placeholderNumber⟩ rest
    else if c = rbrace && st.closePlaceholder then
      formatScan args pos
        ⟨st.result.push rbrace, st.argIndex, false, false,
          st.placeholderNumber⟩ rest
    else if st.closePlaceholder then .error (fmtUnclosedErr pos)
    else
      formatScan args pos
        ⟨st.result.push c, st.argIndex, false, st.closePlaceholder,
          st.placeholderNumber⟩ rest

/-- The initial scanner state of Builtin::execute for Format. -/
def fmtInit : FmtState := ⟨"", 0, false, false, ""⟩

/-- Models a Rust index panic on the builtin argument vector; unreachable
through evaluate_call_expression, whose arity check matches the declared
parameter count before Builtin::execute runs. -/
def argPanicErr (pos : Position) : Error :=
  ⟨.runtimeError, "builtin argument index out of bounds", pos⟩

/-- "argument to `name` not supported, got value" (builtin.rs). -/
def argNotSupportedErr (name : String) (a : Object) (pos : Position) : Error :=
  ⟨.runtimeError,
    "argument to `" ++ name ++ "` not supported, got " ++ a.display, pos⟩

/-- builtin.rs lines 161-354, Builtin::execute.  Pure model: the returned pair
is the produced Object together with the text written to standard output
(write/writeln print args[0] only — their declared variadic parameter
notwithstanding).  readln's interactive transport is out of scope (spec
section 1); the embedding models its failure mode, which no claim exercises. -/
def builtinExecute (b : Builtin) (args : List Object) (pos : Position) :
    Except Error (Object × String) :=
  match b with
  | .len =>
    match args.get? 0 with
    | none => .error (argPanicErr pos)
    | some (.str t _) => .ok (.number ((t.utf8ByteSize : ℚ)) Meta.default, "")
    | some (.array xs _) =>
        .ok (.number ((xs.length : ℚ)) Meta.default, "")
    | some a => .error (argNotSupportedErr "len" a pos)
  | .first =>
    match args.get? 0 with
    | none => .error (argPanicErr pos)
    | some (.array xs _) =>
      match xs.head? with
      | some x => .ok (x, "")
      | none => .ok (.nil Meta.default, "")
    | some a => .error (argNotSupportedErr "first" a pos)
  | .last =>
    match args.get? 0 with
    | none => .error (argPanicErr pos)
    | some (.array xs _) =>
      match xs.getLast? with
      | some x => .ok (x, "")
      | none => .ok (.nil Meta.default, "")
    | some a => .error (argNotSupportedErr "last" a pos)
  | .format =>
    match args.get? 0, args.get? 1 with
    | none, _ => .error (argPanicErr pos)
    | some _, none => .error (argPanicErr pos)
    | some a0, some (.array fmtArgs _) =>
      match formatScan fmtArgs pos fmtInit a0.display.toList with
      | .ok res => .ok (.str res Meta.default, "")
      | .error e => .error e
    | some _, some a1 =>
        .error ⟨.runtimeError,
          "Expected array as second argument to `format`, got " ++ a1.display,
          pos⟩
  | .write =>
    match args.get? 0 with
    | none => .error (argPanicErr pos)
    | some a0 => .ok (.nil Meta.default, a0.display)
  | .writeLn =>
    match args.get? 0 with
    | none => .error (argPanicErr pos)
    | some a0 => .ok (.nil Meta.default, a0.display ++ "\n")
  | .readln =>
      .error ⟨.runtimeError, "failed to initialize readline", pos⟩
  | .pop =>
    match args.get? 0 with
    | none => .error (argPanicErr pos)
    | some (.array xs _) =>
      match xs.getLast? with
      | some x => .ok (x, "")
      | none => .ok (.nil Meta.default, "")
    | some a => .error (argNotSupportedErr "pop" a pos)
  | .push =>
    match args.get? 0 with
    | none => .error (argPanicErr pos)
    | some (.array xs _) =>
      match args.get? 1 with
      | none => .error (argPanicErr pos)
      | some item => .ok (.array (xs ++ [item]) Meta.default, "")
    | some a => .error (argNotSupportedErr "push" a pos)

/-! ### Environment and interpreter state -/

/--
Modelled from the spec: src/runtime/environment.rs is not under src/.
Section 4.3 fixes its observable behavior: `declare` always succeeds and
shadows in the current scope; `get` resolves and fails with
UndefinedIdentifier otherwise; `assign` requires a prior declaration and
"mutates through to where it's declared", so that, although
evaluate_block_expression snapshots and restores the whole variable table
(interpreter.rs lines 128/141), an assignment to an outer variable made inside
a block persists after the block while a `let` made inside vanishes.  The only
table shape consistent with both the snapshot/restore code in src/ and the
spec's required behavior is a map from names to shared mutable cells: cloning
the table copies the name-to-cell map while the cells stay shared.  The
embedding makes the cells explicit: `InterpState.heap` is the store of cells
and the variable table `InterpState.vars` maps names to cell indices; the
snapshot saves the map only, never the store.
-/
def varsLookup : List (String × Nat) → String → Option Nat
  | [], _ => none
  | (k, idx) :: rest, name => if k = name then some idx else varsLookup rest name

/-- Lookup in the function-binding table (keyed by identifier lexeme). -/
def funcsLookup : List (String × FunctionStatement) → String →
    Option FunctionStatement
  | [], _ => none
  | (k, fs) :: rest, name => if k = name then some fs else funcsLookup rest name

/-- The whole interpreter state: the store of variable cells, the variable
table (name to cell), the function table, and the accumulated standard
output. -/
structure InterpState where
  heap : List Object
  vars : List (String × Nat)
  funcs : List (String × FunctionStatement)
  output : String

/-- Modelled from the spec: UndefinedIdentifier(name, position)
(section 4.3). -/
def undefinedIdentErr (tok : Token) : Error :=
  ⟨.runtimeError, "Undefined identifier: " ++ tok.lexeme, tok.position⟩

/-- Modelled from the spec: VariableBindings::declare always succeeds and
shadows any enclosing binding (section 4.3): a fresh cell is allocated and the
name is remapped to it. -/
def declareVar (s : InterpState) (name : String) (v : Object) : InterpState :=
  { s with vars := (name, s.heap.length) :: s.vars, heap := s.heap ++ [v] }

/-- Modelled from the spec: VariableBindings::get resolves innermost-first and
fails with UndefinedIdentifier (section 4.3). -/
def getVar (s : InterpState) (tok : Token) : Except Error Object :=
  match varsLookup s.vars tok.lexeme with
  | some idx =>
    match s.heap.get? idx with
    | some v => .ok v
    | none => .error (undefinedIdentErr tok)
  | none => .error (undefinedIdentErr tok)

/-- Modelled from the spec: VariableBindings::assign requires a prior
declaration and overwrites the binding in whichever scope owns the name
(section 4.3): the owning cell is overwritten in place. -/
def assignVar (s : InterpState) (tok : Token) (v : Object) :
    Except Error InterpState :=
  match varsLookup s.vars tok.lexeme with
  | some idx => .ok { s with heap := s.heap.set idx v }
  | none => .error (undefinedIdentErr tok)

/-- interpreter.rs lines 603-619: the too-few-arguments arity error naming the
missing parameters. -/
def missingArgsErr (callTok : Token) (params : List Parameter)
    (argCount : Nat) : Error :=
  ⟨.runtimeError,
    "The `" ++ callTok.lexeme ++ "` expected " ++ toString params.length ++
      " arguments but got " ++ toString argCount ++
      ". Missing arguments are " ++
      String.intercalate ", "
        ((params.drop argCount).map fun p => "`" ++ p.identifier.lexeme ++ "`"),
    callTok.position⟩

/-- interpreter.rs lines 620-631: the too-many-arguments arity error. -/
def tooManyArgsErr (callTok : Token) (expected actual : Nat) : Error :=
  ⟨.runtimeError,
    "too many arguments passed to `" ++ callTok.lexeme ++ "`. Expected " ++
      toString expected ++ " but got " ++ toString actual,
    callTok.position⟩

/-- interpreter.rs lines 673-683: array-literal evaluation.  A token with a
pre-resolved literal contributes it; an identifier token is resolved through
the variable table (failures abort); any other token is silently dropped. -/
def evalArrayTokens (s : InterpState) : List Token → Except Error (List Object)
  | [] => .ok []
  | tok :: rest =>
    match tok.literal with
    | some o =>
      match evalArrayTokens s rest with
      | .ok os => .ok (o :: os)
      | .error e => .error e
    | none =>
      if tok.ttype = .identifier then
        match getVar s tok with
        | .ok v =>
          match evalArrayTokens s rest with
          | .ok os => .ok (v :: os)
          | .error e => .error e
        | .error e => .error e
      else evalArrayTokens s rest

/-! ### The evaluator (interpreter.rs) -/

/-- One evaluation request of the mutually recursive evaluator: an expression,
a statement, a block (with its scope snapshot), the statement loop of a block,
an if-expression, a function invocation (execute_function_statement), its
parameter-binding loop, and its builtin argument-collection loop. -/
inductive Task where
  | expr : Expression → Task
  | stmt : Statement → Task
  | blockTask : BlockExpression → Task
  | blockStmts : List Statement → Task
  | ifTask : IfExpression → Task
  | execFn : List Expression → FunctionStatement → Task
  | bindParams : List Parameter → List Expression → Task
  | collectArgs : List Expression → List Object → Builtin → Position → Task

/-- The outcome of one evaluation: `none` when the fuel ran out, otherwise the
Rust Result (value or error) together with the state at that point (on error,
the state reached when the error was raised — Rust's `?` propagates before any
snapshot is restored). -/
abbrev EvalRes := Option (Except Error Object × InterpState)

/-- Sequencing of evaluation outcomes: out-of-fuel and errors propagate with
their state, successes continue. -/
def bindRes (r : EvalRes) (k : Object → InterpState → EvalRes) : EvalRes :=
  match r with
  | none => none
  | some (.error e, s) => some (.error e, s)
  | some (.ok v, s) => k v s

/-- One layer of the evaluator, abstracted over the recursive call; `eval`
ties the knot below.  Each Task arm mirrors its Rust function:

  - `.expr` is match_expression (interpreter.rs lines 645-685) with
    evaluate_binary_expression, evaluate_unary_expression,
    evaluate_group_expression, evaluate_call_expression (arity check, lines
    595-636), identifier lookup, literal resolution and array literals;
  - `.stmt` is execute_statement (lines 37-52); its wildcard arm makes a
    top-level Return yield Nil without evaluating its expression;
  - `.blockTask` is evaluate_block_expression's snapshot/restore (lines
    128, 141) around the statement loop;
  - `.blockStmts` is the loop body (lines 130-140): a Return statement
    evaluates its expression, sets the returning flag and stops; any other
    statement whose value carries the flag stops the loop;
  - `.ifTask` is evaluate_if_expression (lines 110-122);
  - `.execFn` is execute_function_statement (lines 83-108): snapshot, the
    zip parameter-binding loop, then the block if present or
    Builtin::try_from followed by re-evaluating the raw arguments and
    Builtin::execute, then the restore (on success only — errors propagate
    through `?` before the restore);
  - `.bindParams` / `.collectArgs` are those two argument loops. -/
def evalStep (recur : Task → InterpState → EvalRes) (t : Task)
    (s : InterpState) : EvalRes :=
  match t with
  | .expr e =>
    match e with
    | .binary l op r =>
      bindRes (recur (.expr l) s) fun lv s1 =>
        bindRes (recur (.expr r) s1) fun rv s2 =>
          match binaryOp op lv rv with
          | .ok v => some (.ok v, s2)
          | .error er => some (.error er, s2)
    | .unary op r =>
      bindRes (recur (.expr r) s) fun rv s1 =>
        match unaryOp op rv with
        | .ok v => some (.ok v, s1)
        | .error er => some (.error er, s1)
    | .group c => recur (.expr c) s
    | .call tok args =>
      match funcsLookup s.funcs tok.lexeme with
      | none => some (.error (undefinedIdentErr tok), s)
      | some fs =>
        if args.length < fs.paramiters.length then
          some (.error (missingArgsErr tok fs.paramiters args.length), s)
        else if fs.paramiters.length < args.length then
          some (.error (tooManyArgsErr tok fs.paramiters.length args.length), s)
        else recur (.execFn args fs) s
    | .identifier tok =>
      match getVar s tok with
      | .ok v => some (.ok v, s)
      | .error er => some (.error er, s)
    | .literal tok =>
      match tok.literal with
      | some o => some (.ok o, s)
      | none => some (.ok (.nil Meta.default), s)
    | .array toks =>
      match evalArrayTokens s toks with
      | .ok os => some (.ok (.array os Meta.default), s)
      | .error er => some (.error er, s)
    | .block b => recur (.blockTask b) s
    | .ifE ife => recur (.ifTask ife) s
  | .stmt st =>
    match st with
    | .letStmt tok e =>
      bindRes (recur (.expr e) s) fun v s1 =>
        some (.ok v, declareVar s1 tok.lexeme v)
    | .assignment tok e =>
      match getVar s tok with
      | .error er => some (.error er, s)
      | .ok _ =>
        bindRes (recur (.expr e) s) fun v s1 =>
          match assignVar s1 tok v with
          | .ok s2 => some (.ok v, s2)
          | .error er => some (.error er, s1)
    | .function fs =>
      some (.ok (.nil Meta.default),
        { s with funcs := (fs.identifier.lexeme, fs) :: s.funcs })
    | .expression e => recur (.expr e) s
    | .ret _ => some (.ok (.nil Meta.default), s)
  | .blockTask b =>
    bindRes (recur (.blockStmts b.statements) s) fun v s1 =>
      some (.ok v, { s1 with vars := s.vars })
  | .blockStmts stmts =>
    match stmts with
    | [] => some (.ok (.nil Meta.default), s)
    | st :: rest =>
      match st with
      | .ret re =>
        bindRes (recur (.expr re) s) fun v s1 =>
          some (.ok v.setReturn, s1)
      | _ =>
        bindRes (recur (.stmt st) s) fun v s1 =>
          if v.isReturn then some (.ok v, s1)
          else
            match rest with
            | [] => some (.ok v, s1)
            | _ => recur (.blockStmts rest) s1
  | .ifTask ife =>
    bindRes (recur (.expr ife.condition) s) fun c s1 =>
      if c.isTrue then recur (.blockTask ife.ifBlock) s1
      else
        match ife.elseBlock with
        | some (.block b) => recur (.blockTask b) s1
        | some (.ifE i2) => recur (.ifTask i2) s1
        | none => some (.ok (.nil Meta.default), s1)
  | .execFn args fs =>
    bindRes (recur (.bindParams fs.paramiters args) s) fun _ s1 =>
      bindRes
        (match fs.block with
          | some b => recur (.blockTask b) s1
          | none =>
            match Builtin.tryFrom fs.identifier with
            | .error er => some (.error er, s1)
            | .ok b =>
                recur (.collectArgs args [] b fs.identifier.position) s1)
        fun v s2 => some (.ok v, { s2 with vars := s.vars })
  | .bindParams ps args =>
    match ps, args with
    | p :: ps2, a :: as2 =>
      bindRes (recur (.expr a) s) fun v s1 =>
        recur (.bindParams ps2 as2) (declareVar s1 p.identifier.lexeme v)
    | _, _ => some (.ok (.nil Meta.default), s)
  | .collectArgs args acc b pos =>
    match args with
    | a :: rest =>
      bindRes (recur (.expr a) s) fun v s1 =>
        recur (.collectArgs rest (acc ++ [v]) b pos) s1
    | [] =>
      match builtinExecute b acc pos with
      | .ok (v, out) => some (.ok v, { s with output := s.output ++ out })
      | .error er => some (.error er, s)

/-- The evaluator: structural recursion on the fuel, one unit per Task. -/
def eval : Nat → Task → InterpState → EvalRes
  | 0, _, _ => none
  | n + 1, t, s => evalStep (eval n) t s

/-- Modelled from the spec: the CLI driver (out of scope per section 1)
registers Builtin::init into the interpreter's function table before running a
program (sections 2 and 4.4: builtins live in the same function table as user
functions).  The initial state: empty store, no variables, the builtin
function table, empty output. -/
def initState : InterpState :=
  ⟨[], [], builtinInit.map (fun fs => (fs.identifier.lexeme, fs)), ""⟩

/-- Driver used to state what a program snippet "evaluates to": executes the
statements in order through execute_statement exactly as Interpreter::interpret
(interpreter.rs lines 30-35) and reports the value produced by the last
statement (interpret itself discards statement values; the spec's scoping
examples are phrased in terms of the value of the trailing expression
statement). -/
def runLast (n : Nat) : List Statement → InterpState → EvalRes
  | [], s => some (.ok (.nil Meta.default), s)
  | [st], s => eval n (.stmt st) s
  | st :: rest, s =>
    bindRes (eval n (.stmt st) s) fun _ s1 => runLast n rest s1

/-! ### Concrete program material used by the claims -/

/-- Position used by the hand-built test tokens. -/
def testPos : Position := ⟨"test", 1⟩

/-- An identifier token (variable or callee name). -/
def identTok (name : String) : Token := ⟨.identifier, name, none, testPos⟩

/-- A number-literal token with its pre-resolved value (section 3: literal
tokens carry their runtime value). -/
def numTok (q : ℚ) : Token :=
  ⟨.numberLit, toString q.num, some (.number q Meta.default), testPos⟩

/-- A string-literal token with its pre-resolved value. -/
def strTok (t : String) : Token :=
  ⟨.stringLit, t, some (.str t Meta.default), testPos⟩

/-- The boolean-literal token for true. -/
def trueTok : Token := ⟨.booleanLit, "true", some (.boolean true Meta.default), testPos⟩

/-- Number-literal expression. -/
def numLit (q : ℚ) : Expression := .literal (numTok q)

/-- String-literal expression. -/
def strLit (t : String) : Expression := .literal (strTok t)

/-- Boolean-literal expression for true. -/
def trueLit : Expression := .literal trueTok

/-- The `>` operator token. -/
def gtTok : Token := ⟨.greater, ">", none, testPos⟩

/-- The `>=` operator token. -/
def geTok : Token := ⟨.greaterEqual, ">=", none, testPos⟩

/-- The `<` operator token. -/
def ltTok : Token := ⟨.less, "<", none, testPos⟩

/-- The `<=` operator token. -/
def leTok : Token := ⟨.lessEqual, "<=", none, testPos⟩

/-- The program `let x = 1; if true { let x = 2; } ; x` of section 8. -/
def scopeLetProgram : List Statement :=
  [ .letStmt (identTok "x") (numLit 1),
    .expression (.ifE (.mk trueLit
      (.mk [.letStmt (identTok "x") (numLit 2)]) none)),
    .expression (.identifier (identTok "x")) ]

/-- The program `let x = 1; if true { x = 2; } ; x` of section 8. -/
def scopeAssignProgram : List Statement :=
  [ .letStmt (identTok "x") (numLit 1),
    .expression (.ifE (.mk trueLit
      (.mk [.assignment (identTok "x") (numLit 2)]) none)),
    .expression (.identifier (identTok "x")) ]

/-- The program `let a = [1,2]; let b = push(a, 3); a` of section 8. -/
def pushProgA : List Statement :=
  [ .letStmt (identTok "a") (.array [numTok 1, numTok 2]),
    .letStmt (identTok "b")
      (.call (identTok "push") [.identifier (identTok "a"), numLit 3]),
    .expression (.identifier (identTok "a")) ]

/-- The program `let a = [1,2]; let b = push(a, 3); b`. -/
def pushProgB : List Statement :=
  [ .letStmt (identTok "a") (.array [numTok 1, numTok 2]),
    .letStmt (identTok "b")
      (.call (identTok "push") [.identifier (identTok "a"), numLit 3]),
    .expression (.identifier (identTok "b")) ]

/-- A function body of the C8 shape: a block whose first statement is
`if true { return e; rest1 }` followed by rest2 — a return inside a nested
if-block with arbitrary trailing statements at both nesting levels. -/
def returnInIfBody (e : Expression) (rest1 rest2 : List Statement) :
    BlockExpression :=
  .mk (.expression (.ifE (.mk trueLit (.mk (.ret e :: rest1)) none)) :: rest2)

/-- A user-defined zero-parameter function with the given body. -/
def fnWithBody (name : String) (body : BlockExpression) : FunctionStatement :=
  .mk (identTok name) [] (some body)

/-- The function-table entry Builtin::init produces for len (the first entry
of the initial function table). -/
def lenFS : FunctionStatement :=
  .mk ⟨.identifier, "len", none, builtinPos⟩ Builtin.len.parameters none

/-- Shorthand for invoking the format builtin on a template and argument
array, as evaluate_call_expression hands them to Builtin::execute. -/
def fmtExec (t : String) (args : List Object) : Except Error (Object × String) :=
  builtinExecute .format
    [.str t Meta.default, .array args Meta.default] testPos

/-- State with the user function `fn f() { if true { return 5; writeln(..); }
writeln(..); }` registered, used to witness the C8 theorem. -/
def c8WitnessState : InterpState :=
  { initState with funcs :=
      ("f", fnWithBody "f" (returnInIfBody (numLit 5)
        [.expression (.call (identTok "writeln") [strLit "NO1"])]
        [.expression (.call (identTok "writeln") [strLit "NO2"])])) ::
      initState.funcs }

/-! ### Theorems -/

/-- Unfolding lemma for the fuel-indexed evaluator. -/
theorem eval_succ (n : Nat) (t : Task) (s : InterpState) :
    eval (n + 1) t s = evalStep (eval n) t s := rfl

/-- set_return makes is_return read true, whatever the variant. -/
theorem isReturn_setReturn (v : Object) : v.setReturn.isReturn = true := by
  cases v <;> rfl

/-- C1: a `let` inside an if-block does not leak (the first scoping program of
section 8 evaluates to 1), while an assignment inside the block to a variable
declared outside persists (the second program evaluates to 2). -/
theorem claim1_block_scoping :
    (runLast 50 scopeLetProgram initState).map Prod.fst
        = some (.ok (.number 1 Meta.default))
    ∧ (runLast 50 scopeAssignProgram initState).map Prod.fst
        = some (.ok (.number 2 Meta.default)) :=
  ⟨rfl, rfl⟩

/-- C2 (code bug): on two numbers every relational operator returns the
boolean comparison, and differing operand types fail with a type mismatch,
but on two strings the relational operators succeed and return the
concatenation of the operands — a successful application whose result is a
String, not a Boolean, contradicting the claim (the string arms were
evidently copied from the `+` operator). -/
theorem claim2_relational_string_concat :
    (∀ (x y : ℚ) (m1 m2 : Meta),
      binaryOp gtTok (.number x m1) (.number y m2)
        = .ok (.boolean (decide (x > y)) Meta.default)
      ∧ binaryOp geTok (.number x m1) (.number y m2)
        = .ok (.boolean (decide (x ≥ y)) Meta.default)
      ∧ binaryOp ltTok (.number x m1) (.number y m2)
        = .ok (.boolean (decide (x < y)) Meta.default)
      ∧ binaryOp leTok (.number x m1) (.number y m2)
        = .ok (.boolean (decide (x ≤ y)) Meta.default))
    ∧ binaryOp gtTok (.number 1 Meta.default) (.str "a" Meta.default)
        = .error (tmSameType gtTok)
    ∧ binaryOp gtTok (.str "a" Meta.default) (.str "b" Meta.default)
        = .ok (.str "ab" Meta.default)
    ∧ binaryOp ltTok (.str "a" Meta.default) (.str "b" Meta.default)
        = .ok (.str "ab" Meta.default) :=
  ⟨fun _ _ _ _ => ⟨rfl, rfl, rfl, rfl⟩, rfl, rfl, rfl⟩

/-- C3 (code bug): write and writeln are declared with a single variadic
parameter, but evaluate_call_expression compares the argument count against
the declared parameter count exactly, so a two-argument call fails with a
too-many-arguments arity error; a one-argument call succeeds, prints the
rendering of the argument and returns Nil. -/
theorem claim3_write_not_variadic :
    (eval 10 (.expr (.call (identTok "write") [numLit 1, numLit 2])) initState
      = some (.error (tooManyArgsErr (identTok "write") 1 2), initState))
    ∧ (eval 10 (.expr (.call (identTok "writeln") [numLit 1, numLit 2]))
        initState
      = some (.error (tooManyArgsErr (identTok "writeln") 1 2), initState))
    ∧ (eval 10 (.expr (.call (identTok "write") [strLit "hi"])) initState
      = some (.ok (.nil Meta.default),
          ⟨[.str "hi" Meta.default], [], initState.funcs, "hi"⟩)) :=
  ⟨rfl, rfl, rfl⟩

/-- C4 counterexample: a top-level `return 5;` yields Nil, not 5, and a
top-level `return writeln("a");` produces no output — execute_statement's
wildcard arm drops the Return without evaluating its expression, contrary to
the claim. -/
theorem claim4_counterexample :
    (eval 10 (.stmt (.ret (numLit 5))) initState
      = some (.ok (.nil Meta.default), initState))
    ∧ (eval 10 (.stmt (.ret (.call (identTok "writeln") [strLit "a"])))
        initState
      = some (.ok (.nil Meta.default), initState)) :=
  ⟨rfl, rfl⟩

/-- C4 amended: a top-level bare expression statement evaluates its expression
and yields the resulting value (with its effects), while a top-level Return
statement is a no-op that yields Nil without evaluating its expression and
without any effect on the state. -/
theorem claim4_amended_top_level :
    (∀ (e : Expression) (s : InterpState) (n : Nat),
      eval (n + 1) (.stmt (.ret e)) s = some (.ok (.nil Meta.default), s))
    ∧ (eval 10 (.stmt (.expression (numLit 5))) initState
        = some (.ok (.number 5 Meta.default), initState))
    ∧ (eval 10 (.stmt (.expression (.call (identTok "writeln") [strLit "a"])))
        initState
        = some (.ok (.nil Meta.default),
            ⟨[.str "a" Meta.default], [], initState.funcs, "a\n"⟩)) :=
  ⟨fun _ _ _ => rfl, rfl, rfl⟩

/-- C5: the four format examples of the claim hold, and in any neutral scanner
state an auto placeholder consumes the next unused argument in order (failing
with the argument-count error when none remains) while doubled braces are
literal escapes. -/
theorem claim5_format_substitution :
    fmtExec "\x7b\x7d-\x7b\x7d" [.number 1 Meta.default, .number 2 Meta.default]
        = .ok (.str "1-2" Meta.default, "")
    ∧ fmtExec "\x7b1\x7d-\x7b0\x7d"
          [.number 1 Meta.default, .number 2 Meta.default]
        = .ok (.str "2-1" Meta.default, "")
    ∧ fmtExec "\x7b\x7b\x7d\x7d" [] = .ok (.str "\x7b\x7d" Meta.default, "")
    ∧ fmtExec "\x7b\x7d" [] = .error (fmtNotEnoughErr testPos)
    ∧ (∀ (args : List Object) (pos : Position) (res : String) (i : Nat)
          (rest : List Char),
        formatScan args pos ⟨res, i, false, false, ""⟩ (lbrace :: rbrace :: rest)
          = match args.get? i with
            | some a =>
                formatScan args pos ⟨res ++ a.display, i + 1, false, false, ""⟩
                  rest
            | none => .error (fmtNotEnoughErr pos))
    ∧ (∀ (args : List Object) (pos : Position) (res : String) (i : Nat)
          (num : String) (rest : List Char),
        formatScan args pos ⟨res, i, false, false, num⟩
            (lbrace :: lbrace :: rest)
          = formatScan args pos ⟨res.push lbrace, i, false, false, num⟩ rest)
    ∧ (∀ (args : List Object) (pos : Position) (res : String) (i : Nat)
          (num : String) (rest : List Char),
        formatScan args pos ⟨res, i, false, false, num⟩
            (rbrace :: rbrace :: rest)
          = formatScan args pos ⟨res.push rbrace, i, false, false, num⟩ rest) :=
  ⟨rfl, rfl, rfl, rfl,
    fun _ _ _ _ _ => rfl,
    fun _ _ _ _ _ _ => rfl,
    fun _ _ _ _ _ _ => rfl⟩

/-- C6 counterexample: a template consisting of a single unmatched close brace
makes format succeed with the empty result — the trailing brace is silently
dropped instead of raising UnclosedPlaceholder as the claim demands. -/
theorem claim6_counterexample :
    fmtExec "\x7d" [] = .ok (.str "" Meta.default, "") :=
  rfl

/-- C6 amended: in a neutral scanner state, an unmatched close brace followed
by a character that is neither a close brace (escape) nor an open brace fails
with UnclosedPlaceholder; an unmatched close brace that is the last character
of the template is silently dropped and the scan succeeds. -/
theorem claim6_amended_unclosed_brace
    (args : List Object) (pos : Position) (res : String) (i : Nat)
    (num : String) (c : Char) (rest : List Char)
    (h1 : c ≠ rbrace) (h2 : c ≠ lbrace) :
    formatScan args pos ⟨res, i, false, false, num⟩ (rbrace :: c :: rest)
      = .error (fmtUnclosedErr pos)
    ∧ formatScan args pos ⟨res, i, false, false, num⟩ [rbrace] = .ok res := by
  constructor
  · have step1 : formatScan args pos ⟨res, i, false, false, num⟩
        (rbrace :: c :: rest)
        = formatScan args pos ⟨res, i, false, true, num⟩ (c :: rest) := rfl
    rw [step1]
    simp [formatScan, h1, h2]
  · rfl

/-- Witness for the C6 amended theorem at the concrete template consisting of
a close brace followed by the letter x, and at the one-character template. -/
theorem claim6_amended_unclosed_brace_witness :
    formatScan [] testPos ⟨"", 0, false, false, ""⟩ [rbrace, Char.ofNat 120]
      = .error (fmtUnclosedErr testPos)
    ∧ formatScan [] testPos ⟨"", 0, false, false, ""⟩ [rbrace] = .ok "" :=
  claim6_amended_unclosed_brace [] testPos "" 0 "" (Char.ofNat 120) []
    (by decide) (by decide)

/-- C7 counterexample: on the one-character string containing e-acute (a
two-byte character), len returns 2 — the UTF-8 byte count — while the
character count is 1, contradicting the claim for strings with multi-byte
characters. -/
theorem claim7_counterexample :
    builtinExecute .len [.str "é" Meta.default] testPos
      = .ok (.number 2 Meta.default, "")
    ∧ "é".length = 1 :=
  ⟨rfl, rfl⟩

/-- C7 amended: len returns the UTF-8 byte count of a String (which equals the
character count exactly for ASCII strings), the element count of an Array, and
fails with a RuntimeError on every other variant; len("hello") = 5,
len([1,2,3]) = 3, len(true) fails. -/
theorem claim7_amended_len_byte_count :
    (∀ (t : String) (m : Meta) (pos : Position),
      builtinExecute .len [.str t m] pos
        = .ok (.number (t.utf8ByteSize : ℚ) Meta.default, ""))
    ∧ (∀ (xs : List Object) (m : Meta) (pos : Position),
      builtinExecute .len [.array xs m] pos
        = .ok (.number (xs.length : ℚ) Meta.default, ""))
    ∧ (∀ (b : Bool) (m : Meta) (pos : Position),
      builtinExecute .len [.boolean b m] pos
        = .error (argNotSupportedErr "len" (.boolean b m) pos))
    ∧ (∀ (q : ℚ) (m : Meta) (pos : Position),
      builtinExecute .len [.number q m] pos
        = .error (argNotSupportedErr "len" (.number q m) pos))
    ∧ (∀ (m : Meta) (pos : Position),
      builtinExecute .len [.nil m] pos
        = .error (argNotSupportedErr "len" (.nil m) pos))
    ∧ builtinExecute .len [.str "hello" Meta.default] testPos
        = .ok (.number 5 Meta.default, "")
    ∧ builtinExecute .len [.array [.number 1 Meta.default,
          .number 2 Meta.default, .number 3 Meta.default] Meta.default] testPos
        = .ok (.number 3 Meta.default, "")
    ∧ builtinExecute .len [.boolean true Meta.default] testPos
        = .error (argNotSupportedErr "len" (.boolean true Meta.default)
            testPos) :=
  ⟨fun _ _ _ => rfl, fun _ _ _ => rfl, fun _ _ _ => rfl,
    fun _ _ _ => rfl, fun _ _ => rfl, rfl, rfl, rfl⟩

/-- C8: calling a user function whose body is
`{ if true { return e; rest1 } rest2 }` evaluates e, sets the returning flag,
and produces e's value as the call's result, for every trailing statement
lists rest1 and rest2 — none of the statements after the return (in the inner
block or in the enclosing function block) is executed, as the result and final
state do not depend on them and the fuel spent does not grow with them. -/
theorem claim8_return_short_circuits
    (e : Expression) (rest1 rest2 : List Statement) (fname : String)
    (k : Nat) (s : InterpState) (v : Object) (s2 : InterpState)
    (hf : funcsLookup s.funcs fname
      = some (fnWithBody fname (returnInIfBody e rest1 rest2)))
    (he : eval (k + 1) (.expr e) s = some (.ok v, s2)) :
    eval (k + 10) (.expr (.call (identTok fname) [])) s
      = some (.ok v.setReturn, { s2 with vars := s.vars }) := by
  rw [show k + 10 = (k + 9) + 1 from rfl, eval_succ]
  simp only [evalStep, identTok]
  rw [hf]
  simp only [fnWithBody, returnInIfBody, FunctionStatement.paramiters,
    List.length, Nat.lt_irrefl, if_false]
  rw [show k + 9 = (k + 8) + 1 from rfl, eval_succ]
  simp only [evalStep]
  rw [show k + 8 = (k + 7) + 1 from rfl, eval_succ]
  simp only [evalStep, bindRes, FunctionStatement.block]
  simp only [FunctionStatement.paramiters]
  rw [eval_succ]
  simp only [evalStep, bindRes, BlockExpression.statements]
  rw [show k + 7 = (k + 6) + 1 from rfl, eval_succ]
  simp only [evalStep]
  rw [show k + 6 = (k + 5) + 1 from rfl, eval_succ]
  simp only [evalStep]
  rw [show k + 5 = (k + 4) + 1 from rfl, eval_succ]
  simp only [evalStep]
  rw [show k + 4 = (k + 3) + 1 from rfl, eval_succ]
  simp only [evalStep, IfExpression.condition, IfExpression.ifBlock,
    IfExpression.elseBlock, bindRes]
  rw [show k + 3 = (k + 2) + 1 from rfl, eval_succ]
  simp only [evalStep, trueLit, trueTok, bindRes, Object.isTrue]
  simp only [if_true]
  rw [eval_succ]
  simp only [evalStep, BlockExpression.statements, bindRes]
  rw [show k + 2 = (k + 1) + 1 from rfl, eval_succ]
  simp only [evalStep, bindRes]
  rw [he]
  simp only [bindRes, isReturn_setReturn, if_true]

/-- Witness for the C8 theorem: calling f in c8WitnessState, where f's body
returns 5 from inside an if-block ahead of two writeln statements, yields 5
with the returning flag set, leaves the state unchanged, and prints
nothing. -/
theorem claim8_return_short_circuits_witness :
    eval 10 (.expr (.call (identTok "f") [])) c8WitnessState
      = some (.ok ((Object.number 5 Meta.default).setReturn), c8WitnessState) :=
  claim8_return_short_circuits (numLit 5)
    [.expression (.call (identTok "writeln") [strLit "NO1"])]
    [.expression (.call (identTok "writeln") [strLit "NO2"])]
    "f" 0 c8WitnessState (.number 5 Meta.default) c8WitnessState rfl rfl

/-- C9: push returns a new array with the item appended (never mutating its
argument — builtinExecute is pure and the end-to-end programs show the
binding a still holds [1,2] after `let b = push(a, 3)` while b holds
[1,2,3]), and fails with a RuntimeError on every non-array first argument. -/
theorem claim9_push_value_semantics :
    (∀ (xs : List Object) (m : Meta) (item : Object) (pos : Position),
      builtinExecute .push [.array xs m, item] pos
        = .ok (.array (xs ++ [item]) Meta.default, ""))
    ∧ (∀ (q : ℚ) (m : Meta) (item : Object) (pos : Position),
      builtinExecute .push [.number q m, item] pos
        = .error (argNotSupportedErr "push" (.number q m) pos))
    ∧ (∀ (t : String) (m : Meta) (item : Object) (pos : Position),
      builtinExecute .push [.str t m, item] pos
        = .error (argNotSupportedErr "push" (.str t m) pos))
    ∧ (∀ (b : Bool) (m : Meta) (item : Object) (pos : Position),
      builtinExecute .push [.boolean b m, item] pos
        = .error (argNotSupportedErr "push" (.boolean b m) pos))
    ∧ (∀ (m : Meta) (item : Object) (pos : Position),
      builtinExecute .push [.nil m, item] pos
        = .error (argNotSupportedErr "push" (.nil m) pos))
    ∧ (runLast 50 pushProgA initState).map Prod.fst
        = some (.ok (.array [.number 1 Meta.default, .number 2 Meta.default]
            Meta.default))
    ∧ (runLast 50 pushProgB initState).map Prod.fst
        = some (.ok (.array [.number 1 Meta.default, .number 2 Meta.default,
            .number 3 Meta.default] Meta.default)) :=
  ⟨fun _ _ _ _ => rfl, fun _ _ _ _ => rfl, fun _ _ _ _ => rfl,
    fun _ _ _ _ => rfl, fun _ _ _ => rfl, rfl, rfl⟩

/-- C10: a call to the builtin len evaluates its argument expression twice:
once while binding the declared parameter (hypothesis h1, from the call-time
state) and once more while collecting the raw argument values for
Builtin::execute (hypothesis h2, from the state after the parameter was
declared); the call's final state is the state after the second evaluation
(with the builtin's output appended and the variable table restored), so the
argument's side effects occur twice per builtin call. -/
theorem claim10_builtin_args_evaluated_twice
    (e : Expression) (k : Nat) (s : InterpState) (v1 v2 r : Object)
    (s1 s2 : InterpState) (out : String)
    (hf : funcsLookup s.funcs "len" = some lenFS)
    (h1 : eval (k + 1) (.expr e) s = some (.ok v1, s1))
    (h2 : eval (k + 1) (.expr e) (declareVar s1 "value" v1) = some (.ok v2, s2))
    (hb : builtinExecute .len [v2] builtinPos = .ok (r, out)) :
    eval (k + 4) (.expr (.call (identTok "len") [e])) s
      = some (.ok r, { s2 with output := s2.output ++ out, vars := s.vars }) := by
  rw [show k + 4 = (k + 3) + 1 from rfl, eval_succ]
  simp only [evalStep, identTok]
  rw [hf]
  simp only [lenFS, FunctionStatement.paramiters, FunctionStatement.block,
    FunctionStatement.identifier, Builtin.parameters, builtinParamTok,
    List.length, Nat.lt_irrefl, if_false]
  rw [show k + 3 = (k + 2) + 1 from rfl, eval_succ]
  simp only [evalStep, FunctionStatement.paramiters, FunctionStatement.block,
    FunctionStatement.identifier, bindRes]
  rw [show k + 2 = (k + 1) + 1 from rfl, eval_succ]
  simp only [evalStep, bindRes]
  rw [h1]
  simp only [bindRes]
  rw [eval_succ]
  simp only [evalStep, bindRes, Builtin.tryFrom]
  rw [eval_succ]
  simp only [evalStep, bindRes]
  rw [h2]
  simp only [bindRes]
  rw [eval_succ]
  simp only [evalStep, bindRes, List.nil_append]
  rw [hb]

/-- Witness for the C10 theorem: len("ab") from the initial state evaluates
the literal twice (each evaluation effect-free), executes the builtin on the
second pass's value and yields 2, with the parameter cell left in the store
and the variable table restored. -/
theorem claim10_builtin_args_evaluated_twice_witness :
    eval 4 (.expr (.call (identTok "len") [strLit "ab"])) initState
      = some (.ok (.number 2 Meta.default),
          ⟨[.str "ab" Meta.default], [], initState.funcs, ""⟩) :=
  claim10_builtin_args_evaluated_twice (strLit "ab") 0 initState
    (.str "ab" Meta.default) (.str "ab" Meta.default) (.number 2 Meta.default)
    initState (declareVar initState "value" (.str "ab" Meta.default)) ""
    rfl rfl rfl rfl

end Func
